import Mathlib

/-!
# ESP32sniffer: promiscuous capture handler and capture configuration

A shallow embedding of `localization.c`: the receive callback
`wifi_sniffer_packet_handler`, the capture set-up `sniffer_config_wifi`
and the connection `event_handler`, followed by the properties proved
about them.
-/

namespace ESP32Sniffer

/-! ## Data model -/

/-- An octet, the C type `uint8_t`. -/
abbrev uint8_t := Fin 256

/-- An error code, the C type `esp_err_t`. -/
abbrev esp_err_t := Nat

/-- Success code of every driver call. -/
def ESP_OK : esp_err_t := 0

/-- Driver error: the station is not associated with an access point. -/
def ESP_ERR_WIFI_NOT_CONNECT : esp_err_t := 0x300F

/-- Radio metadata the driver puts in front of every captured frame; the named
bit-fields of `wifi_pkt_rx_ctrl_t` as listed in the handler. `sig_len` is the
length of the frame that follows. -/
structure wifi_pkt_rx_ctrl_t where
  rssi : Int := 0
  rate : Nat := 0
  sig_mode : Nat := 0
  mcs : Nat := 0
  cwb : Nat := 0
  smoothing : Nat := 0
  not_sounding : Nat := 0
  aggregation : Nat := 0
  stbc : Nat := 0
  fec_coding : Nat := 0
  sgi : Nat := 0
  noise_floor : Int := 0
  ampdu_cnt : Nat := 0
  channel : Nat := 0
  secondary_channel : Nat := 0
  timestamp : Nat := 0
  ant : Nat := 0
  sig_len : Nat := 0
  rx_state : Nat := 0

/-- The buffer handed to the receive callback, `wifi_promiscuous_pkt_t`: the
metadata followed by the flexible array `payload[0]`. The C type puts no bound
on `payload`: index `k` is the octet found `k` places after the metadata,
whether or not `k` is below `rx_ctrl.sig_len`. -/
structure wifi_promiscuous_pkt_t where
  rx_ctrl : wifi_pkt_rx_ctrl_t
  payload : Nat → uint8_t

/-- Byte offsets of the fields of `wifi_ieee80211_mac_hdr_t` inside the
payload: `frame_ctrl:16` and `duration_id:16` share the first four octets. -/
def OFF_ADDR1 : Nat := 4

/-- Offset of `addr2`, the sender address. -/
def OFF_ADDR2 : Nat := 10

/-- Offset of `addr3`, the filtering address. -/
def OFF_ADDR3 : Nat := 16

/-- The view `hdr->addr2` of the header laid over the payload
(`hdr = &((wifi_ieee80211_packet_t *)ppkt->payload)->hdr`). -/
def hdr_addr2 (buff : wifi_promiscuous_pkt_t) : Fin 6 → uint8_t :=
  fun i => buff.payload (OFF_ADDR2 + i.val)

/-- The record of the access point the station is associated with,
`wifi_ap_record_t`. -/
structure wifi_ap_record_t where
  bssid : Fin 6 → uint8_t
  ssid : Fin 33 → uint8_t := fun _ => 0
  primary : Nat := 0
  second : Nat := 0
  rssi : Int := 0
  authmode : Nat := 0
  pairwise_cipher : Nat := 0
  group_cipher : Nat := 0
  ant : Nat := 0
  phy_11b : Bool := false
  phy_11g : Bool := false
  phy_11n : Bool := false
  phy_lr : Bool := false
  wps : Bool := false

/-- What the platform supplies to one run of the receive callback:
the station's association (`none` when it is not associated), the bytes the
local `ap_info` holds before the query fills it, and the value the tick
accessor returns. -/
structure CaptureEnv where
  assoc : Option wifi_ap_record_t
  ap_info_stack : wifi_ap_record_t
  tick : Nat

/-! ## The capture handler -/

/-- Driver query `esp_wifi_sta_get_ap_info(&ap_info)`, external to the
repository: when the station is associated it fills the record and returns
`ESP_OK`; otherwise it returns an error and leaves the record as it was. -/
def esp_wifi_sta_get_ap_info (assoc : Option wifi_ap_record_t)
    (ap_info : wifi_ap_record_t) : esp_err_t × wifi_ap_record_t :=
  match assoc with
  | some r => (ESP_OK, r)
  | none => (ESP_ERR_WIFI_NOT_CONNECT, ap_info)

/-- The loop `for(int i=0; i<sizeof(ap_info.bssid); i++)` of the handler,
entered at index `i`: `false` when the body executes `return` (some octet
differs), `true` when the loop runs to its end. -/
def bssid_loop (bssid addr2 : Fin 6 → uint8_t) (i : Nat) : Bool :=
  if h : i < 6 then
    if bssid ⟨i, h⟩ ≠ addr2 ⟨i, h⟩ then false
    else bssid_loop bssid addr2 (i + 1)
  else true
termination_by 6 - i

/-- The tick accessor `xTaskGetTickCountFromISR()`: the scheduler's count as a
`TickType_t`, 32 bits wide on this target. -/
def xTaskGetTickCountFromISR (tick : Nat) : Nat := tick % 2 ^ 32

/-- The cast `(uint32_t *) x`: an integer converted to a pointer, 32 bits wide
on the ESP32. -/
def cast_uint32_ptr (x : Nat) : Nat := x % 2 ^ 32

/-- Storing a pointer value into the `uint32_t` global. -/
def store_uint32 (p : Nat) : Nat := p % 2 ^ 32

/-- The receive callback `wifi_sniffer_packet_handler(buff, type)`, as a
function of the global `last_clock_registered`: the value it holds on
return. -/
def wifi_sniffer_packet_handler (env : CaptureEnv) (buff : wifi_promiscuous_pkt_t)
    (type : Nat) (last_clock_registered : Nat) : Nat :=
  let _ := type
  let ap_info := (esp_wifi_sta_get_ap_info env.assoc env.ap_info_stack).2
  if bssid_loop ap_info.bssid (hdr_addr2 buff) 0 then
    store_uint32 (cast_uint32_ptr (xTaskGetTickCountFromISR env.tick))
  else
    last_clock_registered

/-- Spec section 4.1: a frame is well formed when its declared length is at
least the minimum fixed MAC header size, 24 octets. -/
def well_formed (buff : wifi_promiscuous_pkt_t) : Prop := 24 ≤ buff.rx_ctrl.sig_len

instance (buff : wifi_promiscuous_pkt_t) : Decidable (well_formed buff) := by
  unfold well_formed; infer_instance

/-- One run of the callback while the station is associated: the captured
buffer, the frame-type argument, the record the driver query returns, the
prior contents of the local `ap_info`, and the tick at call time. -/
structure Invocation where
  buff : wifi_promiscuous_pkt_t
  type : Nat
  ap : wifi_ap_record_t
  ap_info_stack : wifi_ap_record_t
  tick : Nat

/-- The environment of an invocation. -/
def Invocation.env (inv : Invocation) : CaptureEnv :=
  { assoc := some inv.ap, ap_info_stack := inv.ap_info_stack, tick := inv.tick }

/-- Value of the global at process start: `uint32_t last_clock_registered = 0;`. -/
def last_clock_registered_init : Nat := 0

/-- The callback run once per invocation, in order, from a given value of
the global. -/
def run_handler (invs : List Invocation) (last_clock_registered : Nat) : Nat :=
  invs.foldl
    (fun reg inv => wifi_sniffer_packet_handler inv.env inv.buff inv.type reg)
    last_clock_registered

/-- Spec section 4.2, `matches(reference, candidate)`: equality of the two
addresses at all six positions. -/
def addr_equal (reference candidate : Fin 6 → uint8_t) : Bool :=
  decide (∀ i : Fin 6, reference i = candidate i)

/-- An invocation matched: the sender address of its frame equals the bssid of
its access point. -/
def Invocation.matched (inv : Invocation) : Bool :=
  addr_equal inv.ap.bssid (hdr_addr2 inv.buff)

/-- The last invocation of the sequence that matched, if any. -/
def last_matched (invs : List Invocation) : Option Invocation :=
  invs.reverse.find? Invocation.matched

/-! ## Capture configuration and connection events -/

/-- A function pointer that can be installed as receive callback. -/
inductive rx_cb_t where
  | wifi_sniffer_packet_handler
  | foreign (addr : Nat)
deriving DecidableEq, Repr

/-- The driver calls made by `event_handler` and `sniffer_config_wifi`. -/
inductive DriverCall where
  | esp_wifi_connect
  | esp_wifi_set_promiscuous_filter (filter_mask : Nat)
  | esp_wifi_set_promiscuous (en : Bool)
  | esp_wifi_set_promiscuous_rx_cb (cb : rx_cb_t)
deriving DecidableEq, Repr

/-- Filter mask selecting management frames only (ESP-IDF `esp_wifi_types.h`). -/
def WIFI_PROMIS_FILTER_MASK_MGMT : Nat := 1

/-- The state the event side acts on: the driver's capture configuration, the
global `last_clock_registered`, and the driver calls made so far, oldest
first. -/
structure World where
  filter_mask : Nat
  promiscuous : Bool
  rx_cb : Option rx_cb_t
  last_clock_registered : Nat
  calls : List DriverCall
deriving DecidableEq, Repr

/-- The driver's capture configuration: filter mask, promiscuous flag and
receive callback. -/
def capture_config (w : World) : Nat × Bool × Option rx_cb_t :=
  (w.filter_mask, w.promiscuous, w.rx_cb)

/-- The driver's answers: the error code of a call, given the calls made
before it. -/
abbrev Driver := List DriverCall → DriverCall → esp_err_t

/-- The effect of a driver call that succeeds. -/
def DriverCall.effect (c : DriverCall) (w : World) : World :=
  match c with
  | .esp_wifi_connect => w
  | .esp_wifi_set_promiscuous_filter m => { w with filter_mask := m }
  | .esp_wifi_set_promiscuous en => { w with promiscuous := en }
  | .esp_wifi_set_promiscuous_rx_cb cb => { w with rx_cb := some cb }

/-- One driver call: it is recorded, and it takes effect when the driver
answers `ESP_OK`. -/
def driver_call (drv : Driver) (c : DriverCall) (w : World) : esp_err_t × World :=
  let err := drv w.calls c
  let w1 := { w with calls := w.calls ++ [c] }
  if err = ESP_OK then (err, c.effect w1) else (err, w1)

/-- How a function ends: it returns a value, or `ESP_ERROR_CHECK` calls
`abort()`. Either way the state reached is kept. -/
inductive Outcome (α : Type) where
  | returned (ret : α) (w : World)
  | aborted (w : World)
deriving DecidableEq, Repr

/-- The state in which a function ended. -/
def Outcome.world {α : Type} : Outcome α → World
  | .returned _ w => w
  | .aborted w => w

/-- `sniffer_config_wifi()`: set the management-only filter, enable promiscuous
mode, install the callback; each call wrapped in `ESP_ERROR_CHECK`. -/
def sniffer_config_wifi (drv : Driver) (w : World) : Outcome Unit :=
  let filt := WIFI_PROMIS_FILTER_MASK_MGMT
  let r1 := driver_call drv (.esp_wifi_set_promiscuous_filter filt) w
  if r1.1 ≠ ESP_OK then .aborted r1.2 else
  let r2 := driver_call drv (.esp_wifi_set_promiscuous true) r1.2
  if r2.1 ≠ ESP_OK then .aborted r2.2 else
  let r3 := driver_call drv (.esp_wifi_set_promiscuous_rx_cb .wifi_sniffer_packet_handler) r2.2
  if r3.1 ≠ ESP_OK then .aborted r3.2 else
  .returned () r3.2

/-- Event identifiers of `system_event_id_t` (ESP-IDF `esp_event.h`). -/
def SYSTEM_EVENT_SCAN_DONE : Nat := 1

/-- Station started. -/
def SYSTEM_EVENT_STA_START : Nat := 2

/-- Station stopped. -/
def SYSTEM_EVENT_STA_STOP : Nat := 3

/-- Station connected to the access point. -/
def SYSTEM_EVENT_STA_CONNECTED : Nat := 4

/-- Station disconnected from the access point. -/
def SYSTEM_EVENT_STA_DISCONNECTED : Nat := 5

/-- Station got an IP address. -/
def SYSTEM_EVENT_STA_GOT_IP : Nat := 7

/-- The event passed to `event_handler`: its identifier and, for the got-ip
event, the address (only logged). -/
structure system_event_t where
  event_id : Nat
  got_ip : Nat := 0

/-- The loop `while (s_retry_num > 0) { esp_wifi_connect(); s_retry_num--; }`
of the disconnect case; the result of `esp_wifi_connect` is not looked at. -/
def retry_loop (drv : Driver) (s_retry_num : Int) (w : World) : World :=
  if 0 < s_retry_num then
    retry_loop drv (s_retry_num - 1) (driver_call drv .esp_wifi_connect w).2
  else w
termination_by s_retry_num.toNat
decreasing_by omega

/-- `event_handler(ctx, event)`, with the build-time constant
`CONFIG_ESP_MAXIMUM_RETRY` as a parameter. Logging has no effect on the
state. -/
def event_handler (drv : Driver) (CONFIG_ESP_MAXIMUM_RETRY : Int) (ctx : Nat)
    (event : system_event_t) (w : World) : Outcome esp_err_t :=
  let _ := ctx
  if event.event_id = SYSTEM_EVENT_SCAN_DONE then .returned ESP_OK w
  else if event.event_id = SYSTEM_EVENT_STA_START then
    let r := driver_call drv .esp_wifi_connect w
    if r.1 ≠ ESP_OK then .aborted r.2 else .returned ESP_OK r.2
  else if event.event_id = SYSTEM_EVENT_STA_STOP then .returned ESP_OK w
  else if event.event_id = SYSTEM_EVENT_STA_CONNECTED then .returned ESP_OK w
  else if event.event_id = SYSTEM_EVENT_STA_DISCONNECTED then
    let s_retry_num := CONFIG_ESP_MAXIMUM_RETRY
    .returned ESP_OK (retry_loop drv s_retry_num w)
  else if event.event_id = SYSTEM_EVENT_STA_GOT_IP then
    match sniffer_config_wifi drv w with
    | .returned _ w1 => .returned ESP_OK w1
    | .aborted w1 => .aborted w1
  else .returned ESP_OK w

/-- A driver that accepts every call. -/
def driver_ok : Driver := fun _ _ => ESP_OK

/-- A driver that rejects every call. -/
def driver_fail : Driver := fun _ _ => 0x3001

/-- Number of calls of `esp_wifi_set_promiscuous_filter` in a call record; the
first driver call of every run of `sniffer_config_wifi`. -/
def filter_calls (calls : List DriverCall) : Nat :=
  calls.countP (fun c => match c with
    | .esp_wifi_set_promiscuous_filter _ => true
    | _ => false)

/-- A call that touches the capture configuration. -/
def DriverCall.is_capture_call : DriverCall → Bool
  | .esp_wifi_connect => false
  | _ => true

/-- Number of calls of `esp_wifi_connect` in a call record: the association
requests made. -/
def connect_calls (calls : List DriverCall) : Nat :=
  calls.countP (fun c => match c with
    | .esp_wifi_connect => true
    | _ => false)

/-- The messages a run of `event_handler` writes at error level (`ESP_LOGE`),
in order: the one line after the retry loop of the disconnect case. No other
case writes at that level. -/
def event_handler_errors (event : system_event_t) : List String :=
  if event.event_id = SYSTEM_EVENT_STA_DISCONNECTED then ["Connect to the AP fail\n"]
  else []

/-- A driver that accepts the first call of a run and rejects every later
one. -/
def driver_flaky : Driver := fun hist _ => if hist.length ≤ 1 then ESP_OK else 0x3001

/-! ## Concrete data used by the examples -/

/-- A six-octet address from its octets. -/
def mac (a b c d e f : uint8_t) : Fin 6 → uint8_t :=
  fun i => [a, b, c, d, e, f].getD i.val 0

/-- A payload from the octets of the frame followed by the octets that lie
after it in the receive buffer; zero further on. -/
def payload_of (frame trailing : List uint8_t) : Nat → uint8_t :=
  fun k => (frame ++ trailing).getD k 0

/-- A management frame header of 24 octets with the given sender address. -/
def header24 (a b c d e f : uint8_t) : List uint8_t :=
  [0x80, 0x00, 0x00, 0x00,
   0xFF, 0xFF, 0xFF, 0xFF, 0xFF, 0xFF,
   a, b, c, d, e, f,
   a, b, c, d, e, f,
   0x10, 0x00]

/-- A captured beacon of 24 octets sent by `AA:BB:CC:DD:EE:FF`. -/
def frame_from_ap : wifi_promiscuous_pkt_t where
  rx_ctrl := { sig_len := 24, channel := 6 }
  payload := payload_of (header24 0xAA 0xBB 0xCC 0xDD 0xEE 0xFF) []

/-- A captured frame of 24 octets sent by `11:22:33:44:55:66`. -/
def frame_from_other : wifi_promiscuous_pkt_t where
  rx_ctrl := { sig_len := 24, channel := 6 }
  payload := payload_of (header24 0x11 0x22 0x33 0x44 0x55 0x66) []

/-- The access point `AA:BB:CC:DD:EE:FF`. -/
def ap_aabb : wifi_ap_record_t where
  bssid := mac 0xAA 0xBB 0xCC 0xDD 0xEE 0xFF

/-- A record whose octets are all zero. -/
def ap_zero : wifi_ap_record_t where
  bssid := mac 0 0 0 0 0 0

/-- A captured frame of declared length 4; the receive buffer still holds, after
the frame, octets of an earlier beacon of `AA:BB:CC:DD:EE:FF`. -/
def frame_short : wifi_promiscuous_pkt_t where
  rx_ctrl := { sig_len := 4, channel := 6 }
  payload := payload_of [0xD4, 0x00, 0x00, 0x00]
    [0xFF, 0xFF, 0xFF, 0xFF, 0xFF, 0xFF, 0xAA, 0xBB, 0xCC, 0xDD, 0xEE, 0xFF]

/-- A frame from `AA:BB:CC:DD:EE:FF` that differs from `frame_from_ap` in the
metadata, the frame control, the duration, `addr1`, `addr3`, the sequence
control and the body. -/
def frame_from_ap_variant : wifi_promiscuous_pkt_t where
  rx_ctrl := { sig_len := 30, channel := 11, rssi := -70, timestamp := 4242 }
  payload := payload_of
    [0x50, 0x00, 0x3A, 0x01,
     0x01, 0x02, 0x03, 0x04, 0x05, 0x06,
     0xAA, 0xBB, 0xCC, 0xDD, 0xEE, 0xFF,
     0x0A, 0x0B, 0x0C, 0x0D, 0x0E, 0x0F,
     0x20, 0x31,
     0x01, 0x02, 0x03, 0x04, 0x05, 0x06] []

/-- An invocation with the given frame and tick while associated with
`AA:BB:CC:DD:EE:FF`. -/
def inv_at (buff : wifi_promiscuous_pkt_t) (tick : Nat) : Invocation :=
  { buff := buff, type := 0, ap := ap_aabb, ap_info_stack := ap_zero, tick := tick }

/-- Four captures: a beacon of the access point at tick 100, a foreign frame at
200, a beacon at 300, a foreign frame at 400. -/
def capture_sequence : List Invocation :=
  [inv_at frame_from_ap 100, inv_at frame_from_other 200,
   inv_at frame_from_ap 300, inv_at frame_from_other 400]

/-- A driver state before any capture set-up: filter mask 0x7F, promiscuous
mode off, a foreign callback installed, one capture recorded. -/
def world_before : World :=
  { filter_mask := 0x7F, promiscuous := false, rx_cb := some (.foreign 0x400D1234),
    last_clock_registered := 4321, calls := [.esp_wifi_connect] }

/-! ## The address comparison -/

/-- Unfolding of the loop at an index inside the array. -/
theorem bssid_loop_lt (bssid addr2 : Fin 6 → uint8_t) (i : Nat) (h : i < 6) :
    bssid_loop bssid addr2 i =
      (if bssid ⟨i, h⟩ ≠ addr2 ⟨i, h⟩ then false else bssid_loop bssid addr2 (i + 1)) := by
  rw [bssid_loop]; simp [h]

/-- Unfolding of the loop once the index has left the array. -/
theorem bssid_loop_ge (bssid addr2 : Fin 6 → uint8_t) (i : Nat) (h : 6 ≤ i) :
    bssid_loop bssid addr2 i = true := by
  rw [bssid_loop]; simp [Nat.not_lt.mpr h]

/-- The loop entered at index `i` runs to its end exactly when the two arrays
agree at every index from `i` on. -/
theorem bssid_loop_iff (bssid addr2 : Fin 6 → uint8_t) (i : Nat) :
    bssid_loop bssid addr2 i = true ↔ ∀ j : Fin 6, i ≤ j.val → bssid j = addr2 j := by
  generalize hn : 6 - i = n
  induction n generalizing i with
  | zero =>
    rw [bssid_loop_ge _ _ _ (by omega)]
    simp only [true_iff]
    intro j hj
    have := j.isLt
    omega
  | succ n ih =>
    have hi : i < 6 := by omega
    rw [bssid_loop_lt _ _ _ hi]
    by_cases hne : bssid ⟨i, hi⟩ = addr2 ⟨i, hi⟩
    · simp only [ne_eq, hne, not_true_eq_false, if_false]
      rw [ih (i + 1) (by omega)]
      constructor
      · intro hall j hj
        by_cases hji : j.val = i
        · have : j = ⟨i, hi⟩ := Fin.ext hji
          rw [this]; exact hne
        · exact hall j (by omega)
      · intro hall j hj
        exact hall j (by omega)
    · simp only [ne_eq, hne, not_false_eq_true, if_true]
      constructor
      · intro hf; exact absurd hf (by simp)
      · intro hall
        exact absurd (hall ⟨i, hi⟩ (le_refl _)) hne

/-- The whole loop runs to its end exactly when the arrays are equal. -/
theorem bssid_loop_zero_iff (bssid addr2 : Fin 6 → uint8_t) :
    bssid_loop bssid addr2 0 = true ↔ bssid = addr2 := by
  rw [bssid_loop_iff]
  constructor
  · intro h; funext j; exact h j (Nat.zero_le _)
  · intro h j _; rw [h]

/-- The record the handler compares against: the one the query filled, or the
prior contents of the local when the query failed. -/
theorem ap_info_after_query (assoc : Option wifi_ap_record_t) (stack : wifi_ap_record_t) :
    (esp_wifi_sta_get_ap_info assoc stack).2 = assoc.getD stack := by
  cases assoc <;> rfl

/-- The three conversions on the way from the tick accessor to the global keep
a 32-bit value. -/
theorem stored_tick (t : Nat) (ht : t < 2 ^ 32) :
    store_uint32 (cast_uint32_ptr (xTaskGetTickCountFromISR t)) = t := by
  unfold store_uint32 cast_uint32_ptr xTaskGetTickCountFromISR
  rw [Nat.mod_eq_of_lt ht, Nat.mod_eq_of_lt ht, Nat.mod_eq_of_lt ht]

/-- The handler writes the global when the two addresses are equal. -/
theorem handler_of_eq (env : CaptureEnv) (buff : wifi_promiscuous_pkt_t) (type v : Nat)
    (h : (env.assoc.getD env.ap_info_stack).bssid = hdr_addr2 buff) :
    wifi_sniffer_packet_handler env buff type v
      = store_uint32 (cast_uint32_ptr (xTaskGetTickCountFromISR env.tick)) := by
  have hl := (bssid_loop_zero_iff (env.assoc.getD env.ap_info_stack).bssid (hdr_addr2 buff)).mpr h
  simp [wifi_sniffer_packet_handler, ap_info_after_query, hl]

/-- The handler leaves the global alone when the two addresses are not equal. -/
theorem handler_of_ne (env : CaptureEnv) (buff : wifi_promiscuous_pkt_t) (type v : Nat)
    (h : (env.assoc.getD env.ap_info_stack).bssid ≠ hdr_addr2 buff) :
    wifi_sniffer_packet_handler env buff type v = v := by
  have hl : bssid_loop (env.assoc.getD env.ap_info_stack).bssid (hdr_addr2 buff) 0 ≠ true :=
    fun hc => h ((bssid_loop_zero_iff _ _).mp hc)
  simp [wifi_sniffer_packet_handler, ap_info_after_query, hl]

/-- Two arrays that differ at some index are not equal. -/
theorem ne_of_differs {a b : Fin 6 → uint8_t} (h : ∃ i : Fin 6, a i ≠ b i) : a ≠ b := by
  intro hab
  obtain ⟨i, hi⟩ := h
  exact hi (by rw [hab])

/-! ## Capture handler: single invocation -/

/-- C1: for every captured frame (well formed or not), every record `ap` the
association query returns and every 32-bit tick value `t` returned by the tick
accessor, if the sender address `addr2` of the frame equals `ap.bssid` in all
six octets, then on return `last_clock_registered` holds `t` itself: the cast
through a 32-bit pointer does not change the value. -/
theorem handler_match_stores_tick (buff : wifi_promiscuous_pkt_t) (type : Nat)
    (ap stack : wifi_ap_record_t) (t v : Nat) (ht : t < 2 ^ 32)
    (hmatch : ∀ i : Fin 6, hdr_addr2 buff i = ap.bssid i) :
    wifi_sniffer_packet_handler { assoc := some ap, ap_info_stack := stack, tick := t }
      buff type v = t := by
  rw [handler_of_eq]
  · exact stored_tick t ht
  · funext i
    exact (hmatch i).symm

/-- Scenario 1 of the specification: access point and sender
`AA:BB:CC:DD:EE:FF`, tick 12345. -/
theorem handler_match_stores_tick_witness :
    well_formed frame_from_ap ∧
    wifi_sniffer_packet_handler { assoc := some ap_aabb, ap_info_stack := ap_zero, tick := 12345 }
      frame_from_ap 0 0 = 12345 :=
  ⟨by decide,
   handler_match_stores_tick frame_from_ap 0 ap_aabb ap_zero 12345 0 (by decide) (by decide)⟩

/-- C2: for every captured frame, every record `ap` the association query
returns and every prior value `v`, if the sender address of the frame differs
from `ap.bssid` in at least one of the six positions, then on return
`last_clock_registered` is still `v`. -/
theorem handler_mismatch_keeps_register (buff : wifi_promiscuous_pkt_t) (type : Nat)
    (ap stack : wifi_ap_record_t) (t v : Nat)
    (hdiff : ∃ i : Fin 6, hdr_addr2 buff i ≠ ap.bssid i) :
    wifi_sniffer_packet_handler { assoc := some ap, ap_info_stack := stack, tick := t }
      buff type v = v := by
  apply handler_of_ne
  apply ne_of_differs
  obtain ⟨i, hi⟩ := hdiff
  exact ⟨i, fun h => hi h.symm⟩

/-- Scenario 2 of the specification: access point `AA:BB:CC:DD:EE:FF`, sender
`11:22:33:44:55:66`, prior value 999. -/
theorem handler_mismatch_keeps_register_witness :
    wifi_sniffer_packet_handler { assoc := some ap_aabb, ap_info_stack := ap_zero, tick := 12345 }
      frame_from_other 0 999 = 999 :=
  handler_mismatch_keeps_register frame_from_other 0 ap_aabb ap_zero 12345 999
    ⟨0, by decide⟩

/-- C3, the code at the failing input: a buffer whose frame has declared length
4, below the 24-octet header, is not discarded. The handler never looks at the
length; it reads payload octets 10..15, all of which lie after the 4-octet
frame and hold `AA:BB:CC:DD:EE:FF` left by an earlier beacon, finds them equal
to the bssid, and overwrites the prior value 5 with the tick 777. -/
theorem handler_short_frame_overwrites :
    frame_short.rx_ctrl.sig_len = 4 ∧
    ¬ well_formed frame_short ∧
    (∀ i : Fin 6, frame_short.rx_ctrl.sig_len ≤ OFF_ADDR2 + i.val) ∧
    wifi_sniffer_packet_handler { assoc := some ap_aabb, ap_info_stack := ap_zero, tick := 777 }
      frame_short 0 5 = 777 ∧
    wifi_sniffer_packet_handler { assoc := some ap_aabb, ap_info_stack := ap_zero, tick := 777 }
      frame_short 0 5 ≠ 5 := by
  have h : wifi_sniffer_packet_handler
      { assoc := some ap_aabb, ap_info_stack := ap_zero, tick := 777 } frame_short 0 5
        = 777 := by
    rw [handler_of_eq]
    · exact stored_tick 777 (by decide)
    · decide
  refine ⟨rfl, by decide, by decide, h, ?_⟩
  rw [h]
  decide

/-- C4, the code at the failing input: the station is not associated, the
local `ap_info` still holds the record of `AA:BB:CC:DD:EE:FF`, and a frame sent
by that address arrives. The result of the query is not looked at, the
comparison succeeds on the stale octets, and the prior value 5 is overwritten
with the tick 777. -/
theorem handler_not_associated_overwrites :
    (esp_wifi_sta_get_ap_info none ap_aabb).1 ≠ ESP_OK ∧
    wifi_sniffer_packet_handler { assoc := none, ap_info_stack := ap_aabb, tick := 777 }
      frame_from_ap 0 5 = 777 := by
  refine ⟨by decide, ?_⟩
  rw [handler_of_eq]
  · exact stored_tick 777 (by decide)
  · decide

/-! ## The address comparison as a function -/

/-- C5: the loop of the handler over `ap_info.bssid` and `hdr->addr2`, as a
function of two six-octet addresses, runs to its end exactly when the two are
equal at all six positions; it is reflexive, symmetric, and false whenever the
two differ in any octet. -/
theorem address_match_exact (a b : Fin 6 → uint8_t) :
    (bssid_loop a b 0 = true ↔ ∀ i : Fin 6, a i = b i) ∧
    bssid_loop a a 0 = true ∧
    bssid_loop a b 0 = bssid_loop b a 0 ∧
    ((∃ i : Fin 6, a i ≠ b i) → bssid_loop a b 0 = false) := by
  have key : ∀ x y : Fin 6 → uint8_t, bssid_loop x y 0 = true ↔ ∀ i : Fin 6, x i = y i := by
    intro x y
    rw [bssid_loop_zero_iff]
    exact ⟨fun h i => by rw [h], fun h => funext h⟩
  refine ⟨key a b, (key a a).mpr (fun _ => rfl), ?_, ?_⟩
  · rw [Bool.eq_iff_iff, key a b, key b a]
    exact ⟨fun h i => (h i).symm, fun h i => (h i).symm⟩
  · intro hdiff
    rw [← Bool.not_eq_true, key a b]
    obtain ⟨i, hi⟩ := hdiff
    exact fun h => hi (h i)

/-- The addresses `AA:BB:CC:DD:EE:FF` and `AA:BB:CC:DD:EE:FE` differ in the last
octet only and do not match. -/
theorem address_match_exact_witness :
    bssid_loop (mac 0xAA 0xBB 0xCC 0xDD 0xEE 0xFF) (mac 0xAA 0xBB 0xCC 0xDD 0xEE 0xFE) 0
      = false :=
  (address_match_exact (mac 0xAA 0xBB 0xCC 0xDD 0xEE 0xFF)
    (mac 0xAA 0xBB 0xCC 0xDD 0xEE 0xFE)).2.2.2 ⟨5, by decide⟩

/-! ## Sequences of invocations -/

/-- The spec's `matches` is equality of the arrays. -/
theorem addr_equal_iff (a b : Fin 6 → uint8_t) : addr_equal a b = true ↔ a = b := by
  unfold addr_equal
  rw [decide_eq_true_iff]
  exact ⟨fun h => funext h, fun h i => by rw [h]⟩

/-- One associated invocation with a 32-bit tick: the global takes the tick on
a match and keeps its value otherwise. -/
theorem handler_invocation (inv : Invocation) (reg : Nat) (ht : inv.tick < 2 ^ 32) :
    wifi_sniffer_packet_handler inv.env inv.buff inv.type reg
      = if inv.matched = true then inv.tick else reg := by
  by_cases hm : inv.matched = true
  · rw [if_pos hm, handler_of_eq]
    · exact stored_tick inv.tick ht
    · exact (addr_equal_iff _ _).mp hm
  · rw [if_neg hm]
    apply handler_of_ne
    exact fun h => hm ((addr_equal_iff _ _).mpr h)

/-- The last matching invocation of a sequence extended by one invocation. -/
theorem last_matched_append (invs : List Invocation) (inv : Invocation) :
    last_matched (invs ++ [inv])
      = if inv.matched = true then some inv else last_matched invs := by
  unfold last_matched
  rw [List.reverse_append, List.reverse_singleton, List.singleton_append, List.find?_cons]
  cases inv.matched <;> simp

/-- The run extended by one invocation. -/
theorem run_handler_append (invs : List Invocation) (inv : Invocation) (reg : Nat) :
    run_handler (invs ++ [inv]) reg
      = wifi_sniffer_packet_handler inv.env inv.buff inv.type (run_handler invs reg) := by
  unfold run_handler
  rw [List.foldl_append]
  rfl

/-- After a run with 32-bit ticks the global holds the tick of the last
matching invocation, or its starting value when none matched. -/
theorem run_handler_eq (invs : List Invocation) (reg : Nat)
    (ht : ∀ inv ∈ invs, inv.tick < 2 ^ 32) :
    run_handler invs reg
      = match last_matched invs with
        | some inv => inv.tick
        | none => reg := by
  induction invs using List.reverseRecOn with
  | nil => rfl
  | append_singleton xs x ih =>
    have hx : x.tick < 2 ^ 32 := ht x (by simp)
    have hxs : ∀ inv ∈ xs, inv.tick < 2 ^ 32 := fun inv hin => ht inv (by simp [hin])
    rw [run_handler_append, handler_invocation _ _ hx, last_matched_append, ih hxs]
    by_cases hm : x.matched = true
    · simp [hm]
    · simp [hm]

/-- C6: starting from the initial state, after every finite sequence of
invocations (each with its own frame, access-point record and 32-bit tick) the
global holds the tick of the last invocation whose sender address matched the
bssid, and 0 if none matched; nothing else of the sequence enters the value. -/
theorem run_handler_last_write_wins (invs : List Invocation)
    (ht : ∀ inv ∈ invs, inv.tick < 2 ^ 32) :
    run_handler invs last_clock_registered_init
      = match last_matched invs with
        | some inv => inv.tick
        | none => 0 :=
  run_handler_eq invs last_clock_registered_init ht

/-- Beacons at ticks 100 and 300 among foreign frames at 200 and 400: the
global ends at 300. -/
theorem run_handler_last_write_wins_witness :
    run_handler capture_sequence last_clock_registered_init = 300 :=
  (run_handler_last_write_wins capture_sequence (by decide)).trans (by decide)

/-- C7, the claim fails: one beacon of the access point captured at tick 0
leaves the global at 0 although an invocation matched. -/
theorem register_zero_after_capture :
    (inv_at frame_from_ap 0).tick < 2 ^ 32 ∧
    (inv_at frame_from_ap 0).matched = true ∧
    run_handler [inv_at frame_from_ap 0] last_clock_registered_init = 0 := by
  refine ⟨by decide, by decide, ?_⟩
  rw [run_handler_eq _ _ (by decide)]
  decide

/-- C7 as amended: starting from the initial state, after every finite sequence
of invocations with 32-bit ticks, if the global reads 0 then either no
invocation matched or the last invocation that matched carried the tick 0. -/
theorem register_zero_meaning (invs : List Invocation)
    (ht : ∀ inv ∈ invs, inv.tick < 2 ^ 32)
    (hzero : run_handler invs last_clock_registered_init = 0) :
    (∀ inv ∈ invs, inv.matched = false) ∨
    (∃ inv, last_matched invs = some inv ∧ inv.tick = 0) := by
  rw [run_handler_eq invs _ ht] at hzero
  cases hl : last_matched invs with
  | none =>
    left
    intro inv hin
    unfold last_matched at hl
    rw [List.find?_eq_none] at hl
    have := hl inv (List.mem_reverse.mpr hin)
    simpa using this
  | some inv =>
    right
    rw [hl] at hzero
    exact ⟨inv, rfl, hzero⟩

/-- Two foreign frames leave the global at 0, and no invocation matched. -/
theorem register_zero_meaning_witness :
    (∀ inv ∈ [inv_at frame_from_other 200, inv_at frame_from_other 400],
        inv.matched = false) ∨
    (∃ inv, last_matched [inv_at frame_from_other 200, inv_at frame_from_other 400]
        = some inv ∧ inv.tick = 0) :=
  register_zero_meaning [inv_at frame_from_other 200, inv_at frame_from_other 400]
    (by decide) (by rw [run_handler_eq _ _ (by decide)]; decide)

/-! ## Dependence on the frame -/

/-- C8: the effect of the handler depends on the buffer only through payload
octets 10..15, the field `addr2`: for every environment (association, prior
contents of `ap_info`, tick) and prior value of the global, two buffers that
agree on these six octets, passed with any two frame-type arguments, leave
`last_clock_registered` with the same value, whatever their metadata, other
header fields and body. -/
theorem handler_depends_on_addr2_only (env : CaptureEnv)
    (b1 b2 : wifi_promiscuous_pkt_t) (type1 type2 v : Nat)
    (hagree : ∀ i : Fin 6, b1.payload (10 + i.val) = b2.payload (10 + i.val)) :
    wifi_sniffer_packet_handler env b1 type1 v
      = wifi_sniffer_packet_handler env b2 type2 v := by
  have h : hdr_addr2 b1 = hdr_addr2 b2 := funext hagree
  unfold wifi_sniffer_packet_handler
  rw [h]

/-- Two frames of `AA:BB:CC:DD:EE:FF` that differ everywhere outside `addr2`,
passed as types 0 and 2: both are well formed and give the same result. -/
theorem handler_depends_on_addr2_only_witness :
    well_formed frame_from_ap ∧ well_formed frame_from_ap_variant ∧
    frame_from_ap.payload 4 ≠ frame_from_ap_variant.payload 4 ∧
    wifi_sniffer_packet_handler { assoc := some ap_aabb, ap_info_stack := ap_zero, tick := 12345 }
        frame_from_ap 0 999
      = wifi_sniffer_packet_handler
          { assoc := some ap_aabb, ap_info_stack := ap_zero, tick := 12345 }
          frame_from_ap_variant 2 999 :=
  ⟨by decide, by decide, by decide,
   handler_depends_on_addr2_only
     { assoc := some ap_aabb, ap_info_stack := ap_zero, tick := 12345 }
     frame_from_ap frame_from_ap_variant 0 2 999 (by decide)⟩

/-! ## Capture configuration -/

/-- With a driver that accepts every call, `sniffer_config_wifi` returns with
the three settings made and the three calls recorded. -/
theorem sniffer_config_wifi_ok (drv : Driver) (hok : ∀ hist c, drv hist c = ESP_OK)
    (w : World) :
    sniffer_config_wifi drv w = .returned ()
      { filter_mask := WIFI_PROMIS_FILTER_MASK_MGMT, promiscuous := true,
        rx_cb := some .wifi_sniffer_packet_handler,
        last_clock_registered := w.last_clock_registered,
        calls := w.calls ++ [.esp_wifi_set_promiscuous_filter WIFI_PROMIS_FILTER_MASK_MGMT,
          .esp_wifi_set_promiscuous true,
          .esp_wifi_set_promiscuous_rx_cb .wifi_sniffer_packet_handler] } := by
  simp [sniffer_config_wifi, driver_call, hok, DriverCall.effect]

/-- C9: with a driver that accepts every call, from every starting state
`sniffer_config_wifi` returns, and running it a second time returns with the
same capture configuration as after the first run: filter mask management
frames only, promiscuous mode on, callback `wifi_sniffer_packet_handler`. -/
theorem sniffer_config_wifi_idempotent (drv : Driver)
    (hok : ∀ hist c, drv hist c = ESP_OK) (w : World) :
    ∃ w1 w2, sniffer_config_wifi drv w = .returned () w1 ∧
      sniffer_config_wifi drv w1 = .returned () w2 ∧
      capture_config w1
        = (WIFI_PROMIS_FILTER_MASK_MGMT, true, some rx_cb_t.wifi_sniffer_packet_handler) ∧
      capture_config w2 = capture_config w1 :=
  ⟨_, _, sniffer_config_wifi_ok drv hok w, sniffer_config_wifi_ok drv hok _, rfl, rfl⟩

/-- From a state with another filter, promiscuous mode off and a foreign
callback, with the driver that accepts every call. -/
theorem sniffer_config_wifi_idempotent_witness :
    ∃ w1 w2, sniffer_config_wifi driver_ok world_before = .returned () w1 ∧
      sniffer_config_wifi driver_ok w1 = .returned () w2 ∧
      capture_config w1
        = (WIFI_PROMIS_FILTER_MASK_MGMT, true, some rx_cb_t.wifi_sniffer_packet_handler) ∧
      capture_config w2 = capture_config w1 :=
  sniffer_config_wifi_idempotent driver_ok (fun _ _ => rfl) world_before

/-! ## Connection events -/

/-- Whatever the driver answers, `esp_wifi_connect` is recorded and changes
nothing else. -/
theorem connect_state (drv : Driver) (w : World) :
    (driver_call drv .esp_wifi_connect w).2
      = { w with calls := w.calls ++ [.esp_wifi_connect] } := by
  unfold driver_call
  by_cases h : drv w.calls .esp_wifi_connect = ESP_OK
  · simp [h, DriverCall.effect]
  · simp [h]

/-- The retry loop started with `s_retry_num` ends, having made
`s_retry_num` calls of `esp_wifi_connect` (none when it is not positive) and
changed nothing else. -/
theorem retry_loop_state (drv : Driver) (s_retry_num : Int) (w : World) :
    retry_loop drv s_retry_num w
      = { w with calls := w.calls
            ++ List.replicate s_retry_num.toNat DriverCall.esp_wifi_connect } := by
  generalize hn : s_retry_num.toNat = n
  induction n generalizing s_retry_num w with
  | zero =>
    rw [retry_loop, if_neg (by omega)]
    simp
  | succ k ih =>
    rw [retry_loop, if_pos (by omega), ih (s_retry_num - 1) _ (by omega), connect_state]
    simp [List.replicate_succ]

/-- A record extended by calls of `esp_wifi_connect` holds no further call of
`esp_wifi_set_promiscuous_filter`. -/
theorem filter_calls_connects (calls : List DriverCall) (k : Nat) :
    filter_calls (calls ++ List.replicate k DriverCall.esp_wifi_connect)
      = filter_calls calls := by
  unfold filter_calls
  rw [List.countP_append]
  have : List.countP (fun c => match c with
      | DriverCall.esp_wifi_set_promiscuous_filter _ => true
      | _ => false) (List.replicate k DriverCall.esp_wifi_connect) = 0 := by
    rw [List.countP_eq_zero]
    intro c hc
    rw [List.eq_of_mem_replicate hc]
    simp
  omega

/-- Every run of `sniffer_config_wifi`, returning or aborting, makes exactly
one call of `esp_wifi_set_promiscuous_filter`. -/
theorem sniffer_config_wifi_filter_calls (drv : Driver) (w : World) :
    filter_calls (sniffer_config_wifi drv w).world.calls = filter_calls w.calls + 1 := by
  unfold sniffer_config_wifi
  simp only [driver_call]
  split_ifs <;>
    simp [Outcome.world, DriverCall.effect, filter_calls, List.countP_append]

/-- For an event other than got-ip the handler ends in the starting state
extended by some calls of `esp_wifi_connect`. -/
theorem event_handler_other_state (drv : Driver) (N : Int) (ctx : Nat)
    (event : system_event_t) (w : World)
    (hne : event.event_id ≠ SYSTEM_EVENT_STA_GOT_IP) :
    ∃ k, (event_handler drv N ctx event w).world
      = { w with calls := w.calls ++ List.replicate k DriverCall.esp_wifi_connect } := by
  unfold event_handler
  simp only [if_neg hne]
  split_ifs
  · exact ⟨0, by simp [Outcome.world]⟩
  · exact ⟨1, by simp [Outcome.world, connect_state]⟩
  · exact ⟨1, by simp [Outcome.world, connect_state]⟩
  · exact ⟨0, by simp [Outcome.world]⟩
  · exact ⟨0, by simp [Outcome.world]⟩
  · exact ⟨N.toNat, by simp [Outcome.world, retry_loop_state]⟩
  · exact ⟨0, by simp [Outcome.world]⟩

/-- C10: `event_handler` triggers the capture set-up exactly on IP acquisition.
For a got-ip event it ends as one run of `sniffer_config_wifi` from the
starting state does, so exactly one call of `esp_wifi_set_promiscuous_filter`
is added to the record. For every other event identifier the only driver calls
added are calls of `esp_wifi_connect`, and the capture configuration and
`last_clock_registered` are unchanged. For station-stopped and connected events
it returns `ESP_OK` in the starting state, with no driver call. -/
theorem event_handler_capture_trigger (drv : Driver) (N : Int) (ctx : Nat)
    (event : system_event_t) (w : World) :
    (event.event_id = SYSTEM_EVENT_STA_GOT_IP →
      event_handler drv N ctx event w
        = (match sniffer_config_wifi drv w with
           | .returned _ w1 => .returned ESP_OK w1
           | .aborted w1 => .aborted w1) ∧
      filter_calls (event_handler drv N ctx event w).world.calls
        = filter_calls w.calls + 1) ∧
    (event.event_id ≠ SYSTEM_EVENT_STA_GOT_IP →
      (∃ k, (event_handler drv N ctx event w).world.calls
          = w.calls ++ List.replicate k DriverCall.esp_wifi_connect) ∧
      filter_calls (event_handler drv N ctx event w).world.calls = filter_calls w.calls ∧
      capture_config (event_handler drv N ctx event w).world = capture_config w ∧
      (event_handler drv N ctx event w).world.last_clock_registered
        = w.last_clock_registered) ∧
    (event.event_id = SYSTEM_EVENT_STA_STOP ∨
        event.event_id = SYSTEM_EVENT_STA_CONNECTED →
      event_handler drv N ctx event w = .returned ESP_OK w) := by
  refine ⟨?_, ?_, ?_⟩
  · intro hip
    have heq : event_handler drv N ctx event w
        = (match sniffer_config_wifi drv w with
           | .returned _ w1 => .returned ESP_OK w1
           | .aborted w1 => .aborted w1) := by
      unfold event_handler
      simp [hip, SYSTEM_EVENT_STA_GOT_IP, SYSTEM_EVENT_SCAN_DONE, SYSTEM_EVENT_STA_START,
        SYSTEM_EVENT_STA_STOP, SYSTEM_EVENT_STA_CONNECTED, SYSTEM_EVENT_STA_DISCONNECTED]
    refine ⟨heq, ?_⟩
    rw [heq, ← sniffer_config_wifi_filter_calls drv w]
    cases sniffer_config_wifi drv w <;> rfl
  · intro hne
    obtain ⟨k, hk⟩ := event_handler_other_state drv N ctx event w hne
    rw [hk]
    exact ⟨⟨k, rfl⟩, filter_calls_connects _ _, rfl, rfl⟩
  · intro hev
    unfold event_handler
    rcases hev with h | h <;>
      simp [h, SYSTEM_EVENT_STA_GOT_IP, SYSTEM_EVENT_SCAN_DONE, SYSTEM_EVENT_STA_START,
        SYSTEM_EVENT_STA_STOP, SYSTEM_EVENT_STA_CONNECTED, SYSTEM_EVENT_STA_DISCONNECTED]

/-- Three events from a state with a foreign configuration. Got-ip on a driver
that accepts every call: one run of `sniffer_config_wifi`. Disconnect with
three retries on a driver that rejects every call: three calls of
`esp_wifi_connect`, configuration and global as before. Station stopped:
nothing happens. -/
theorem event_handler_capture_trigger_witness :
    (event_handler driver_ok 3 0 { event_id := SYSTEM_EVENT_STA_GOT_IP } world_before
        = (match sniffer_config_wifi driver_ok world_before with
           | .returned _ w1 => .returned ESP_OK w1
           | .aborted w1 => .aborted w1) ∧
      filter_calls (event_handler driver_ok 3 0 { event_id := SYSTEM_EVENT_STA_GOT_IP }
          world_before).world.calls = filter_calls world_before.calls + 1) ∧
    ((∃ k, (event_handler driver_fail 3 0 { event_id := SYSTEM_EVENT_STA_DISCONNECTED }
          world_before).world.calls
        = world_before.calls ++ List.replicate k DriverCall.esp_wifi_connect) ∧
      filter_calls (event_handler driver_fail 3 0
          { event_id := SYSTEM_EVENT_STA_DISCONNECTED } world_before).world.calls
        = filter_calls world_before.calls ∧
      capture_config (event_handler driver_fail 3 0
          { event_id := SYSTEM_EVENT_STA_DISCONNECTED } world_before).world
        = capture_config world_before ∧
      (event_handler driver_fail 3 0 { event_id := SYSTEM_EVENT_STA_DISCONNECTED }
          world_before).world.last_clock_registered
        = world_before.last_clock_registered) ∧
    event_handler driver_fail 3 0 { event_id := SYSTEM_EVENT_STA_STOP } world_before
      = .returned ESP_OK world_before :=
  ⟨(event_handler_capture_trigger driver_ok 3 0
      { event_id := SYSTEM_EVENT_STA_GOT_IP } world_before).1 rfl,
   (event_handler_capture_trigger driver_fail 3 0
      { event_id := SYSTEM_EVENT_STA_DISCONNECTED } world_before).2.1 (by decide),
   (event_handler_capture_trigger driver_fail 3 0
      { event_id := SYSTEM_EVENT_STA_STOP } world_before).2.2 (Or.inl rfl)⟩

/-! ## The retry loop of the disconnect case -/

/-- A record extended by `k` calls of `esp_wifi_connect` holds `k` more
association requests. -/
theorem connect_calls_connects (calls : List DriverCall) (k : Nat) :
    connect_calls (calls ++ List.replicate k DriverCall.esp_wifi_connect)
      = connect_calls calls + k := by
  unfold connect_calls
  rw [List.countP_append]
  congr 1
  induction k with
  | zero => rfl
  | succ n ih => rw [List.replicate_succ, List.countP_cons, ih]; rfl

/-- C11: on a disconnect event, for every retry count
`N = CONFIG_ESP_MAXIMUM_RETRY` and every driver (whatever it answers to the
requests), the retry loop ends and `event_handler` returns `ESP_OK` without
aborting; the state it returns in is the starting state with exactly
`max(N, 0)` calls of `esp_wifi_connect` added to the record, which for `N ≥ 0`
is never more than `N`; and the failure is reported by one error-level line. -/
theorem event_handler_disconnected_retries (drv : Driver) (N : Int) (ctx : Nat)
    (event : system_event_t) (w : World)
    (hev : event.event_id = SYSTEM_EVENT_STA_DISCONNECTED) :
    event_handler drv N ctx event w
      = .returned ESP_OK
          { w with calls := w.calls
              ++ List.replicate (max N 0).toNat DriverCall.esp_wifi_connect } ∧
    ((connect_calls (event_handler drv N ctx event w).world.calls : Int)
      = (connect_calls w.calls : Int) + max N 0) ∧
    (0 ≤ N →
      connect_calls (event_handler drv N ctx event w).world.calls
        ≤ connect_calls w.calls + N.toNat ∧
      ((connect_calls (event_handler drv N ctx event w).world.calls : Int)
        - (connect_calls w.calls : Int) ≤ N)) ∧
    event_handler_errors event = ["Connect to the AP fail\n"] := by
  have hmax : (max N 0).toNat = N.toNat := by omega
  have heq : event_handler drv N ctx event w
      = .returned ESP_OK
          { w with calls := w.calls
              ++ List.replicate (max N 0).toNat DriverCall.esp_wifi_connect } := by
    unfold event_handler
    simp [hev, hmax, retry_loop_state, SYSTEM_EVENT_STA_DISCONNECTED, SYSTEM_EVENT_SCAN_DONE,
      SYSTEM_EVENT_STA_START, SYSTEM_EVENT_STA_STOP, SYSTEM_EVENT_STA_CONNECTED]
  have hcount : connect_calls (event_handler drv N ctx event w).world.calls
      = connect_calls w.calls + N.toNat := by
    rw [heq, hmax]
    exact connect_calls_connects w.calls N.toNat
  refine ⟨heq, ?_, ?_, ?_⟩
  · rw [hcount]
    omega
  · intro hN
    rw [hcount]
    constructor
    · exact le_refl _
    · omega
  · simp [event_handler_errors, hev]

/-- Disconnect events from a state with one earlier association request. With
three retries on a driver that accepts only the first request: three requests
are added, and the handler returns `ESP_OK`. With a retry count of -2: no
request is made. -/
theorem event_handler_disconnected_retries_witness :
    (event_handler driver_flaky 3 0 { event_id := SYSTEM_EVENT_STA_DISCONNECTED } world_before
        = .returned ESP_OK
            { world_before with calls :=
                [.esp_wifi_connect, .esp_wifi_connect, .esp_wifi_connect,
                 .esp_wifi_connect] } ∧
      connect_calls (event_handler driver_flaky 3 0
          { event_id := SYSTEM_EVENT_STA_DISCONNECTED } world_before).world.calls = 4) ∧
    event_handler driver_flaky (-2) 0 { event_id := SYSTEM_EVENT_STA_DISCONNECTED }
        world_before
      = .returned ESP_OK world_before := by
  have h3 := event_handler_disconnected_retries driver_flaky 3 0
    { event_id := SYSTEM_EVENT_STA_DISCONNECTED } world_before rfl
  have hneg := event_handler_disconnected_retries driver_flaky (-2) 0
    { event_id := SYSTEM_EVENT_STA_DISCONNECTED } world_before rfl
  refine ⟨⟨h3.1.trans (by decide), ?_⟩, hneg.1.trans (by decide)⟩
  rw [h3.1]
  decide

end ESP32Sniffer
